import Mathlib

/-!
Verification of the EmotionalTracker Django backend against its
natural-language specification.  The definitions below are a shallow
embedding of the repository code: pure view helpers become Lean
functions, Django querysets over in-scope collaborators become lists,
and HTTP responses become explicit records.  Machine arithmetic in the
source is plain Python integers, so Int and Nat model it exactly;
Python float divisions in the participation percentages are modelled
over the rationals.
-/

namespace ET

/-! ## Emotion taxonomy and classification (views.py, models.py) -/

/-- Embedding of get_emotion_label (views.py lines 32-45): the
six-band degree-to-label classification, evaluated in source order. -/
def get_emotion_label (degree : Int) : String :=
  if degree ≤ -5 then "angry"
  else if degree ≤ -2 then "anxious"
  else if degree ≤ -1 then "sad"
  else if degree = 0 then "neutral"
  else if 0 < degree ∧ degree < 5 then "happy"
  else if degree ≥ 5 then "excited"
  else "neutral"

/-- Embedding of general_humor (views.py lines 48-54). -/
def general_humor (degree : Int) : String :=
  if degree > 0 then "positive"
  else if degree < 0 then "negative"
  else "neutral"

/-- Embedding of EmotionType.EMOTION_DEGREES (models.py lines 23-30),
the fixed name-to-degree dictionary, as a partial map on names. -/
def EMOTION_DEGREES (name : String) : Option Int :=
  if name = "HAPPY" then some 1
  else if name = "SAD" then some (-1)
  else if name = "NEUTRAL" then some 0
  else if name = "ANGRY" then some (-5)
  else if name = "EXCITED" then some 5
  else if name = "ANXIOUS" then some (-2)
  else none

/-- A Django ValidationError keyed on a single field. -/
structure FieldError where
  field : String
  message : String
deriving DecidableEq

/-- A persisted EmotionType row (name and derived degree). -/
structure EmotionTypeRecord where
  name : String
  degree : Int
deriving DecidableEq

/-- Embedding of EmotionType.clean (models.py lines 40-48): names
outside the fixed table raise a ValidationError keyed on the name
field listing the permitted values; otherwise the degree is
recomputed from the table. -/
def emotion_type_clean (name : String) : Except FieldError Int :=
  match EMOTION_DEGREES name with
  | some d => Except.ok d
  | none => Except.error
      ⟨"name", "Emotion type must be one of: HAPPY, SAD, NEUTRAL, ANGRY, EXCITED, ANXIOUS"⟩

/-- Embedding of EmotionType.save (models.py lines 50-52): clean runs
before every save, so the caller-supplied degree is discarded and the
row persists only when clean succeeds. -/
def emotion_type_save (name : String) (callerDegree : Int) :
    Except FieldError EmotionTypeRecord :=
  match emotion_type_clean name with
  | Except.ok d => Except.ok ⟨name, d⟩
  | Except.error e => Except.error e

/-! ## Emotion submission (views.py, submit_emotion, lines 211-292) -/

/-- A REST response from the submit endpoint: HTTP status, optional
error body, and the half_day of the Emotion record created (none when
no record is created).  A Response built without an explicit status
carries the framework default 200. -/
structure SubmitResponse where
  status : Nat
  error : Option String
  createdHalfDay : Option String
deriving DecidableEq

/-- Weekend rejection body of submit_emotion (views.py line 229). -/
def weekend_error_message : String :=
  "C\x27est le week-end, vous ne pouvez déclarer vos émotions que durant la semaine de travail:"

/-- Embedding of submit_emotion (views.py lines 211-292) as a function
of the Madagascar-local weekday index (0 = Monday .. 6 = Sunday), the
local hour, whether the posted emotion_type id resolves, and whether a
morning or evening Emotion already exists for today.  The weekend
branch returns a Response with no explicit status, hence 200. -/
def submit_emotion (weekdayIdx hour : Nat)
    (validEmotionType morningExists eveningExists : Bool) : SubmitResponse :=
  if weekdayIdx = 5 ∨ weekdayIdx = 6 then
    ⟨200, some weekend_error_message, none⟩
  else if validEmotionType = false then
    ⟨400, some "Invalid emotion type", none⟩
  else if hour < 12 then
    if morningExists then ⟨400, some "Morning emotion already submitted", none⟩
    else ⟨201, none, some "morning"⟩
  else if eveningExists then ⟨400, some "Evening emotion already submitted", none⟩
  else if hour ≥ 17 then ⟨400, some "No more emotion submissions allowed after 5 PM", none⟩
  else ⟨201, none, some "evening"⟩

/-! ## Participation percentages (views.py lines 359 and 421) -/

/-- Embedding of the manager_overview day-participation formula
(views.py line 421): min(1.0, S / (N * 2) if N > 0 else 0) * 100. -/
def manager_percent_day (totalSubordinates totalSubmissionsDay : Nat) : ℚ :=
  min 1 (if 0 < totalSubordinates then
          (totalSubmissionsDay : ℚ) / (totalSubordinates * 2) else 0) * 100

/-- Embedding of the personal emotion_overview day-participation
formula (views.py line 359): min(1.0, total_day / 2.0) * 100. -/
def overview_percent_day (totalDay : Nat) : ℚ :=
  min 1 ((totalDay : ℚ) / 2) * 100

/-! ## PDF reporting endpoints (views.py) -/

/-- Outcome of a reporting-pdf endpoint: a 403 forbidden response, a
400 bad-request response, a PDF attachment under the given filename,
or an uncaught exception (no response produced). -/
inductive PdfOutcome where
  | forbidden : String → PdfOutcome
  | badRequest : String → PdfOutcome
  | pdf : String → PdfOutcome
  | crash : PdfOutcome
deriving DecidableEq

/-- Embedding of department_director_reporting_pdf (views.py lines
669-762): role gate, department-assignment gate, then a PDF built and
returned with the fixed attachment filename. -/
def department_director_reporting_pdf (role : String) (hasDepartment : Bool) : PdfOutcome :=
  if role ≠ "department_director" then PdfOutcome.forbidden "You are not a department director"
  else if !hasDepartment then PdfOutcome.badRequest "No department assigned"
  else PdfOutcome.pdf "department_report.pdf"

/-- Embedding of entity_director_reporting_pdf (views.py lines
1008-1101). -/
def entity_director_reporting_pdf (role : String) (hasEntity : Bool) : PdfOutcome :=
  if role ≠ "entity_director" then PdfOutcome.forbidden "You are not an entity director"
  else if !hasEntity then PdfOutcome.badRequest "No entity assigned"
  else PdfOutcome.pdf "entity_report.pdf"

/-- Embedding of pole_director_reporting_pdf (views.py lines
1435-1556). -/
def pole_director_reporting_pdf (role : String) (hasCluster : Bool) : PdfOutcome :=
  if role ≠ "pole_director" then PdfOutcome.forbidden "You are not a pole director"
  else if !hasCluster then PdfOutcome.badRequest "No cluster assigned"
  else PdfOutcome.pdf "cluster_report.pdf"

/-- Embedding of drh_reporting_pdf (views.py lines 1963-2038).  After
the role gate the handler sets the drh_report.pdf content-disposition
header, but at line 2014 it executes
elements.append(Paragraph("Clusters :"), header_style) — a call of
list.append with two arguments, which raises TypeError before any
response is returned; the function body also ends inside the cluster
loop with no doc.build and no return statement.  Either way no PDF
response is ever produced, which the embedding records as crash. -/
def drh_reporting_pdf (role : String) : PdfOutcome :=
  if role ≠ "admin" then PdfOutcome.forbidden "Vous n\x27êtes pas un DRH"
  else PdfOutcome.crash

/-! ## Data model for the reporting engine (views.py final revision)

The final views revision filters Emotion rows by the stored derived
fields date__date, week_number, month and year against the module
globals today, week_number, month, year computed once at import time
(views.py lines 26-29).  An EmotionRow carries exactly those stored
fields; ViewsGlobals carries the module-level snapshot. -/

/-- Stored fields of an Emotion row used by the window filters:
emotion_degree, the calendar day of date, and the derived week_number,
month and year columns. -/
structure EmotionRow where
  degree : Int
  dateDay : Int
  weekNumber : Int
  month : Int
  year : Int
deriving DecidableEq

/-- The module-level date snapshot of views.py lines 26-29: today,
week_number, year, month computed once at module initialization. -/
structure ViewsGlobals where
  today : Int
  weekNumber : Int
  month : Int
  year : Int
deriving DecidableEq

/-- The three reporting windows of get_emotions_for_period. -/
inductive Window where
  | day
  | week
  | month
deriving DecidableEq

/-- Window membership of an Emotion row, mirroring the queryset
filters of get_emotions_for_period (views.py lines 58-66):
date__date = today for day, week_number and year match for week,
month and year match for month. -/
def emotionInWindow (g : ViewsGlobals) (w : Window) (e : EmotionRow) : Bool :=
  match w with
  | Window.day => e.dateDay == g.today
  | Window.week => e.weekNumber == g.weekNumber && e.year == g.year
  | Window.month => e.month == g.month && e.year == g.year

/-- A Collaborator with their owned Emotion rows (the reverse
foreign-key accessor collaborator.emotions). -/
structure Collaborator where
  firstName : String
  lastName : String
  role : String
  emotions : List EmotionRow
deriving DecidableEq

/-- The display name built throughout views.py as
first_name followed by last_name. -/
def fullName (c : Collaborator) : String := c.firstName ++ " " ++ c.lastName

/-- A Service and its collaborators (service.collaborators.all()). -/
structure Service where
  name : String
  collaborators : List Collaborator
deriving DecidableEq

/-- A Department and its services (department.services.all()). -/
structure Department where
  name : String
  services : List Service
deriving DecidableEq

/-- An Entity and its departments (entity.departments.all()). -/
structure Entity where
  name : String
  departments : List Department
deriving DecidableEq

/-- A Cluster and its entities (cluster.entities.all()). -/
structure Cluster where
  name : String
  entities : List Entity
deriving DecidableEq

/-- Embedding of get_emotions_for_period (views.py lines 58-66): all
Emotion rows whose collaborator is in the given set, restricted to the
window; each row belongs to exactly one collaborator, so the rows of a
collaborator list are the concatenation of the per-collaborator
rows. -/
def get_emotions_for_period (g : ViewsGlobals) (cs : List Collaborator) (w : Window) :
    List EmotionRow :=
  ((cs.map (fun c => c.emotions)).flatten).filter (emotionInWindow g w)

/-- The degree roll-up used at every tier (for example views.py lines
575-577): sum of emotion_degree over get_emotions_for_period of the
collaborator set. -/
def periodDegree (g : ViewsGlobals) (cs : List Collaborator) (w : Window) : Int :=
  ((get_emotions_for_period g cs w).map (fun e => e.degree)).sum

/-- Modelled from the spec: the final Collaborator model (absent from
the shipped models.py, which holds the superseded flat hierarchy)
defines emotion_degree_this_week as the sum of emotion_degree over the
Emotions matching the current ISO week and year (spec section 4.3). -/
def emotion_degree_this_week (g : ViewsGlobals) (c : Collaborator) : Int :=
  ((c.emotions.filter (emotionInWindow g Window.week)).map (fun e => e.degree)).sum

/-- Modelled from the spec: emotion_degree_this_month of the final
Collaborator model, the sum of emotion_degree over the Emotions
matching the current calendar month and year (spec section 4.3). -/
def emotion_degree_this_month (g : ViewsGlobals) (c : Collaborator) : Int :=
  ((c.emotions.filter (emotionInWindow g Window.month)).map (fun e => e.degree)).sum

/-- The today-degree sum of one collaborator, as computed inline at
every tier (for example views.py line 540):
sum(e.emotion_degree for e in collaborator.emotions.filter(date__date=today)). -/
def emotion_degree_today (g : ViewsGlobals) (c : Collaborator) : Int :=
  ((c.emotions.filter (emotionInWindow g Window.day)).map (fun e => e.degree)).sum

/-- The individual supervision flag (views.py lines 452-457 and
537-541): negative week sum, negative month sum, or negative sum of
today. -/
def needsSupervision (g : ViewsGlobals) (c : Collaborator) : Bool :=
  emotion_degree_this_week g c < 0 || emotion_degree_this_month g c < 0 ||
    emotion_degree_today g c < 0

/-- The collaborators_to_supervise list built at every tier (views.py
lines 535-542): names of the collaborators flagged individually. -/
def collaborators_to_supervise (g : ViewsGlobals) (cs : List Collaborator) : List String :=
  (cs.filter (needsSupervision g)).map fullName

/-- The service supervision flag (views.py lines 600-602): the service
is flagged when its day, week or month general humor is negative. -/
def serviceFlagged (g : ViewsGlobals) (s : Service) : Bool :=
  general_humor (periodDegree g s.collaborators Window.day) == "negative" ||
  general_humor (periodDegree g s.collaborators Window.week) == "negative" ||
  general_humor (periodDegree g s.collaborators Window.month) == "negative"

/-- The service_to_supervise list of a department (views.py lines
600-602 and 887-889): names of the flagged services. -/
def service_to_supervise (g : ViewsGlobals) (d : Department) : List String :=
  (d.services.filter (serviceFlagged g)).map (fun s => s.name)

/-- The department_to_supervise list of an entity (views.py lines
965-966 and 1338-1339): departments whose own service_to_supervise
list is nonempty. -/
def department_to_supervise (g : ViewsGlobals) (e : Entity) : List String :=
  (e.departments.filter (fun d => !(service_to_supervise g d).isEmpty)).map
    (fun d => d.name)

/-- The entity_to_supervise list of a cluster (views.py lines
1395-1396 and 1880-1881): entities whose department_to_supervise list
is nonempty. -/
def entity_to_supervise (g : ViewsGlobals) (c : Cluster) : List String :=
  (c.entities.filter (fun e => !(department_to_supervise g e).isEmpty)).map
    (fun e => e.name)

/-- The cluster_to_supervise list of the global DRH view (views.py
lines 1927-1928): clusters whose entity_to_supervise list is
nonempty. -/
def cluster_to_supervise (g : ViewsGlobals) (cls : List Cluster) : List String :=
  (cls.filter (fun c => !(entity_to_supervise g c).isEmpty)).map (fun c => c.name)

/-- The collaborators in a department scope, accumulated service by
service as in views.py (collaborators += service_collaborators). -/
def departmentCollaborators (d : Department) : List Collaborator :=
  (d.services.map (fun s => s.collaborators)).flatten

/-- The collaborators in an entity scope. -/
def entityCollaborators (e : Entity) : List Collaborator :=
  (e.departments.map departmentCollaborators).flatten

/-- The collaborators in a cluster scope. -/
def clusterCollaborators (c : Cluster) : List Collaborator :=
  (c.entities.map entityCollaborators).flatten

/-- The collaborators in the global scope over all clusters. -/
def allCollaborators (cls : List Cluster) : List Collaborator :=
  (cls.map clusterCollaborators).flatten

/-- The department-tier degree accumulator (views.py lines 596-598):
total_emotion_degree for the department is accumulated as the sum of
the per-service degree sums. -/
def departmentRollupDegree (g : ViewsGlobals) (d : Department) (w : Window) : Int :=
  (d.services.map (fun s => periodDegree g s.collaborators w)).sum

/-- The entity-tier degree accumulator (views.py lines 961-963):
the sum over departments of the department accumulators. -/
def entityRollupDegree (g : ViewsGlobals) (e : Entity) (w : Window) : Int :=
  (e.departments.map (fun d => departmentRollupDegree g d w)).sum

/-- The cluster-tier degree accumulator (views.py lines 1391-1393). -/
def clusterRollupDegree (g : ViewsGlobals) (c : Cluster) (w : Window) : Int :=
  (c.entities.map (fun e => entityRollupDegree g e w)).sum

/-- The global degree accumulator of the DRH view (views.py lines
1923-1925). -/
def globalRollupDegree (g : ViewsGlobals) (cls : List Cluster) (w : Window) : Int :=
  (cls.map (fun c => clusterRollupDegree g c w)).sum

/-! ## Request handlers as functions of the request-time clock (C10)

Each overview handler below takes the module-initialization snapshot g
and a second argument for the wall-clock at request-handling time.
The bodies are line-by-line translations of the handlers, which
reference only the module globals and never read the clock, so the
second argument does not occur in any body. -/

/-- Per-window metrics of the manager overview (views.py lines
402-483): submission counts, degree sums, labels, humors, and the
subordinates_to_supervise list. -/
structure ManagerOverviewData where
  totalSubmissionsDay : Nat
  totalSubmissionsWeek : Nat
  totalSubmissionsMonth : Nat
  degreeDay : Int
  degreeWeek : Int
  degreeMonth : Int
  emotionToday : String
  emotionThisWeek : String
  emotionThisMonth : String
  humorDay : String
  humorWeek : String
  humorMonth : String
  subordinatesToSupervise : List String
deriving DecidableEq

/-- Embedding of the manager_overview handler (views.py lines
402-483) restricted to its window filters: every date window is taken
from the module snapshot g; requestNow is the wall clock at request
time, which the handler never reads. -/
def manager_overview (g : ViewsGlobals) (requestNow : Int)
    (subordinates : List Collaborator) : ManagerOverviewData :=
  { totalSubmissionsDay := (get_emotions_for_period g subordinates Window.day).length
    totalSubmissionsWeek := (get_emotions_for_period g subordinates Window.week).length
    totalSubmissionsMonth := (get_emotions_for_period g subordinates Window.month).length
    degreeDay := periodDegree g subordinates Window.day
    degreeWeek := periodDegree g subordinates Window.week
    degreeMonth := periodDegree g subordinates Window.month
    emotionToday := get_emotion_label (periodDegree g subordinates Window.day)
    emotionThisWeek := get_emotion_label (periodDegree g subordinates Window.week)
    emotionThisMonth := get_emotion_label (periodDegree g subordinates Window.month)
    humorDay := general_humor (periodDegree g subordinates Window.day)
    humorWeek := general_humor (periodDegree g subordinates Window.week)
    humorMonth := general_humor (periodDegree g subordinates Window.month)
    subordinatesToSupervise := collaborators_to_supervise g subordinates }

/-- The department_director_overview handler (views.py lines 494-667)
reduced to its supervision list, degree accumulators and labels; the
wall clock at request time is never read. -/
def department_director_overview (g : ViewsGlobals) (requestNow : Int)
    (d : Department) : List String × Int × Int × Int × String :=
  (service_to_supervise g d,
   departmentRollupDegree g d Window.day,
   departmentRollupDegree g d Window.week,
   departmentRollupDegree g d Window.month,
   get_emotion_label (departmentRollupDegree g d Window.month))

/-- The entity_director_overview handler (views.py lines 772-1006)
reduced to its supervision list and degree accumulators. -/
def entity_director_overview (g : ViewsGlobals) (requestNow : Int)
    (e : Entity) : List String × Int × Int × Int × String :=
  (department_to_supervise g e,
   entityRollupDegree g e Window.day,
   entityRollupDegree g e Window.week,
   entityRollupDegree g e Window.month,
   get_emotion_label (entityRollupDegree g e Window.month))

/-- The pole_director_overview handler (views.py lines 1112-1433)
reduced to its supervision list and degree accumulators. -/
def pole_director_overview (g : ViewsGlobals) (requestNow : Int)
    (c : Cluster) : List String × Int × Int × Int × String :=
  (entity_to_supervise g c,
   clusterRollupDegree g c Window.day,
   clusterRollupDegree g c Window.week,
   clusterRollupDegree g c Window.month,
   get_emotion_label (clusterRollupDegree g c Window.month))

/-- The drh_overview handler (views.py lines 1567-1961) reduced to its
supervision list and degree accumulators. -/
def drh_overview (g : ViewsGlobals) (requestNow : Int)
    (cls : List Cluster) : List String × Int × Int × Int × String :=
  (cluster_to_supervise g cls,
   globalRollupDegree g cls Window.day,
   globalRollupDegree g cls Window.week,
   globalRollupDegree g cls Window.month,
   get_emotion_label (globalRollupDegree g cls Window.month))

/-! ## Static name resolution of the shipped models module (C1)

The shipped models.py defines the superseded flat hierarchy only; the
lists below enumerate its top-level class definitions and the names
the final serializers.py and views.py import from it. -/

/-- The top-level classes defined by the shipped models.py (lines 12,
62, 228, 385, 521, 638, 1020); the module defines no other top-level
names besides its imports. -/
def models_module_classes : List String :=
  ["EmotionType", "Cluster", "Company", "Team", "Service", "Collaborator", "Emotion"]

/-- Collaborator.ROLE_CHOICES of the shipped models.py (lines
639-644). -/
def collaborator_role_choices : List String :=
  ["EMPLOYEE", "MANAGER", "DIRECTOR", "POLE_DIRECTOR"]

/-- The foreign keys of the shipped Service model (models.py lines
521-526): Team, Company and Cluster. -/
def service_foreign_keys : List String := ["Team", "Company", "Cluster"]

/-- The names serializers.py imports from the models module (lines
4-7). -/
def serializers_models_imports : List String :=
  ["Cluster", "Entity", "Department", "Service", "Collaborator", "EmotionType", "Emotion"]

/-- The names views.py imports from the models module (line 23). -/
def views_models_imports : List String :=
  ["Emotion", "EmotionType", "Collaborator", "get_emotion_label_from_degree", "Cluster"]

/-- A from-import statement resolves only when every imported name is
defined by the module. -/
def imports_resolve (imports exported : List String) : Bool :=
  imports.all (fun n => exported.contains n)

/-! ## Helper lemmas -/

/-- The degree roll-up distributes over concatenation of collaborator
sets. -/
theorem periodDegree_append (g : ViewsGlobals) (w : Window)
    (as bs : List Collaborator) :
    periodDegree g (as ++ bs) w = periodDegree g as w + periodDegree g bs w := by
  simp [periodDegree, get_emotions_for_period, List.map_append, List.flatten_append,
    List.filter_append, List.sum_append]

/-- The degree roll-up over a flattened family of collaborator sets is
the sum of the per-set roll-ups. -/
theorem periodDegree_flatten (g : ViewsGlobals) (w : Window)
    (lss : List (List Collaborator)) :
    periodDegree g lss.flatten w = (lss.map (fun cs => periodDegree g cs w)).sum := by
  induction lss with
  | nil => simp [periodDegree, get_emotions_for_period]
  | cons hd tl ih =>
    simp [List.flatten_cons, periodDegree_append, ih]

/-- The direct department-scope degree sum equals the accumulator over
its services. -/
theorem departmentDegree_eq (g : ViewsGlobals) (w : Window) (d : Department) :
    periodDegree g (departmentCollaborators d) w = departmentRollupDegree g d w := by
  simp [departmentCollaborators, departmentRollupDegree, periodDegree_flatten,
    List.map_map, Function.comp_def]

/-- The direct entity-scope degree sum equals the accumulator over its
departments. -/
theorem entityDegree_eq (g : ViewsGlobals) (w : Window) (e : Entity) :
    periodDegree g (entityCollaborators e) w = entityRollupDegree g e w := by
  simp [entityCollaborators, entityRollupDegree, periodDegree_flatten,
    List.map_map, Function.comp_def, departmentDegree_eq]

/-- The direct cluster-scope degree sum equals the accumulator over
its entities. -/
theorem clusterDegree_eq (g : ViewsGlobals) (w : Window) (c : Cluster) :
    periodDegree g (clusterCollaborators c) w = clusterRollupDegree g c w := by
  simp [clusterCollaborators, clusterRollupDegree, periodDegree_flatten,
    List.map_map, Function.comp_def, entityDegree_eq]

/-- The direct global-scope degree sum equals the accumulator over all
clusters. -/
theorem globalDegree_eq (g : ViewsGlobals) (w : Window) (cls : List Cluster) :
    periodDegree g (allCollaborators cls) w = globalRollupDegree g cls w := by
  simp [allCollaborators, globalRollupDegree, periodDegree_flatten,
    List.map_map, Function.comp_def, clusterDegree_eq]

/-- Membership in a filter-then-name-map list from a member satisfying
the filter. -/
theorem name_mem_filter_map {α : Type} (nm : α → String) (p : α → Bool)
    {x : α} {l : List α} (hx : x ∈ l) (hp : p x = true) :
    nm x ∈ (l.filter p).map nm :=
  List.mem_map.mpr ⟨x, List.mem_filter.mpr ⟨hx, hp⟩, rfl⟩

/-- A clamped ratio scaled to a percentage stays within zero and one
hundred. -/
theorem clamp_percent_bounds (x : ℚ) (hx : 0 ≤ x) :
    0 ≤ min 1 x * 100 ∧ min 1 x * 100 ≤ 100 := by
  constructor
  · have h0 : (0 : ℚ) ≤ min 1 x := le_min (by norm_num) hx
    nlinarith
  · have h1 : min 1 x ≤ 1 := min_le_left _ _
    nlinarith

end ET

/-! # Claims -/

/-- Claim C1: the shipped models module defines only the superseded
flat hierarchy (Cluster, Company, Team, a Service keyed by Team, and a
Collaborator with roles EMPLOYEE, MANAGER, DIRECTOR, POLE_DIRECTOR)
and defines no Entity, no Department and no
get_emotion_label_from_degree, so the from-model imports of the
serialization layer and of the views module fail to resolve and no
final-revision API operation can execute as shipped. -/
theorem c1_models_module_flat_hierarchy_breaks_imports :
    "Entity" ∉ ET.models_module_classes ∧
    "Department" ∉ ET.models_module_classes ∧
    "get_emotion_label_from_degree" ∉ ET.models_module_classes ∧
    ET.collaborator_role_choices = ["EMPLOYEE", "MANAGER", "DIRECTOR", "POLE_DIRECTOR"] ∧
    "Team" ∈ ET.service_foreign_keys ∧
    ET.imports_resolve ET.serializers_models_imports ET.models_module_classes = false ∧
    ET.imports_resolve ET.views_models_imports ET.models_module_classes = false := by
  decide

/-- Claim C2: the department, entity and pole reporting-pdf handlers
return PDF attachments under their fixed filenames once their
preconditions hold, but the DRH handler crashes with a TypeError
(views.py line 2014 calls list.append with two arguments, and the
handler never reaches a return) instead of producing the
drh_report.pdf attachment the specification promises. -/
theorem c2_drh_pdf_crashes_before_response :
    ET.department_director_reporting_pdf "department_director" true =
      ET.PdfOutcome.pdf "department_report.pdf" ∧
    ET.entity_director_reporting_pdf "entity_director" true =
      ET.PdfOutcome.pdf "entity_report.pdf" ∧
    ET.pole_director_reporting_pdf "pole_director" true =
      ET.PdfOutcome.pdf "cluster_report.pdf" ∧
    ET.drh_reporting_pdf "admin" = ET.PdfOutcome.crash ∧
    ET.drh_reporting_pdf "admin" ≠ ET.PdfOutcome.pdf "drh_report.pdf" := by
  refine ⟨rfl, rfl, rfl, rfl, ?_⟩
  decide

/-- Claim C3 counterexample: a Service holding a collaborator whose
week-degree sum is negative is not flagged in its parent Department
service_to_supervise list when the service-level day, week and month
degree sums are all nonnegative.  Concretely, with module snapshot
(today 100, week 37, month 10, year 2025), collaborator Ann has a
single week emotion of degree -1 (week sum -1 < 0), colleague Bob has
one of degree 5, so the S1 service sums are 0, 4 and 4 and S1 is
absent from the supervision list of department D1. -/
theorem c3_negative_collaborator_service_not_flagged :
    ET.emotion_degree_this_week ⟨100, 37, 10, 2025⟩
      ⟨"Ann", "A", "employee", [⟨-1, 99, 37, 10, 2025⟩]⟩ < 0 ∧
    (⟨"Ann", "A", "employee", [⟨-1, 99, 37, 10, 2025⟩]⟩ : ET.Collaborator) ∈
      (⟨"S1", [⟨"Ann", "A", "employee", [⟨-1, 99, 37, 10, 2025⟩]⟩,
               ⟨"Bob", "B", "employee", [⟨5, 99, 37, 10, 2025⟩]⟩]⟩ : ET.Service).collaborators ∧
    (⟨"S1", [⟨"Ann", "A", "employee", [⟨-1, 99, 37, 10, 2025⟩]⟩,
             ⟨"Bob", "B", "employee", [⟨5, 99, 37, 10, 2025⟩]⟩]⟩ : ET.Service) ∈
      (⟨"D1", [⟨"S1", [⟨"Ann", "A", "employee", [⟨-1, 99, 37, 10, 2025⟩]⟩,
                       ⟨"Bob", "B", "employee", [⟨5, 99, 37, 10, 2025⟩]⟩]⟩]⟩ :
        ET.Department).services ∧
    "S1" ∉ ET.service_to_supervise ⟨100, 37, 10, 2025⟩
      ⟨"D1", [⟨"S1", [⟨"Ann", "A", "employee", [⟨-1, 99, 37, 10, 2025⟩]⟩,
                      ⟨"Bob", "B", "employee", [⟨5, 99, 37, 10, 2025⟩]⟩]⟩]⟩ := by
  decide

/-- Claim C3 as amended: a Service whose own day, week or month summed
degree has negative general humor appears in its parent Department
service_to_supervise list; a Department whose service_to_supervise
list is nonempty appears in department_to_supervise one tier up, and
the chain propagates through entity_to_supervise to the global
cluster_to_supervise list. -/
theorem c3_amended_supervision_chain (g : ET.ViewsGlobals) (s : ET.Service)
    (d : ET.Department) (e : ET.Entity) (c : ET.Cluster) (cls : List ET.Cluster)
    (hs : s ∈ d.services)
    (hflag : ET.general_humor (ET.periodDegree g s.collaborators ET.Window.day) = "negative" ∨
             ET.general_humor (ET.periodDegree g s.collaborators ET.Window.week) = "negative" ∨
             ET.general_humor (ET.periodDegree g s.collaborators ET.Window.month) = "negative") :
    s.name ∈ ET.service_to_supervise g d ∧
    (d ∈ e.departments → d.name ∈ ET.department_to_supervise g e) ∧
    (d ∈ e.departments → e ∈ c.entities → e.name ∈ ET.entity_to_supervise g c) ∧
    (d ∈ e.departments → e ∈ c.entities → c ∈ cls →
      c.name ∈ ET.cluster_to_supervise g cls) := by
  have hflagB : ET.serviceFlagged g s = true := by
    unfold ET.serviceFlagged
    rcases hflag with h | h | h <;> simp [h]
  have hserv : s.name ∈ ET.service_to_supervise g d :=
    ET.name_mem_filter_map (fun s => s.name) _ hs hflagB
  have hdept : ∀ e' : ET.Entity, d ∈ e'.departments →
      d.name ∈ ET.department_to_supervise g e' := by
    intro e' hd
    refine ET.name_mem_filter_map (fun d => d.name) _ hd ?_
    simp only [Bool.not_eq_true']
    exact List.isEmpty_eq_false_iff_exists_mem.mpr ⟨s.name, hserv⟩
  have hent : ∀ c' : ET.Cluster, d ∈ e.departments → e ∈ c'.entities →
      e.name ∈ ET.entity_to_supervise g c' := by
    intro c' hd he
    refine ET.name_mem_filter_map (fun e => e.name) _ he ?_
    simp only [Bool.not_eq_true']
    exact List.isEmpty_eq_false_iff_exists_mem.mpr ⟨d.name, hdept e hd⟩
  refine ⟨hserv, fun hd => hdept e hd, fun hd he => hent c hd he, fun hd he hc => ?_⟩
  refine ET.name_mem_filter_map (fun c => c.name) _ hc ?_
  simp only [Bool.not_eq_true']
  exact List.isEmpty_eq_false_iff_exists_mem.mpr ⟨e.name, hent c hd he⟩

/-- Claim C3 amended witness: the supervision chain evaluated on a
concrete negative-week service nested in a department, entity and
cluster. -/
theorem c3_amended_supervision_chain_witness :
    "S2" ∈ ET.service_to_supervise ⟨100, 37, 10, 2025⟩
      ⟨"D2", [⟨"S2", [⟨"Eve", "E", "employee", [⟨-3, 99, 37, 10, 2025⟩]⟩]⟩]⟩ :=
  (c3_amended_supervision_chain ⟨100, 37, 10, 2025⟩
    ⟨"S2", [⟨"Eve", "E", "employee", [⟨-3, 99, 37, 10, 2025⟩]⟩]⟩
    ⟨"D2", [⟨"S2", [⟨"Eve", "E", "employee", [⟨-3, 99, 37, 10, 2025⟩]⟩]⟩]⟩
    ⟨"E2", []⟩ ⟨"C2", []⟩ []
    (by decide) (Or.inr (Or.inl (by decide)))).1

/-- Claim C4: for every department, entity, cluster and cluster
collection and each of the day, week and month windows, the sum of
emotion_degree over all Emotion rows of the collaborators in scope,
computed directly, equals the tier accumulator that sums the
per-child degree sums — no row counted twice, none omitted. -/
theorem c4_rollup_additivity (g : ET.ViewsGlobals) (w : ET.Window)
    (d : ET.Department) (e : ET.Entity) (c : ET.Cluster) (cls : List ET.Cluster) :
    ET.periodDegree g (ET.departmentCollaborators d) w = ET.departmentRollupDegree g d w ∧
    ET.periodDegree g (ET.entityCollaborators e) w = ET.entityRollupDegree g e w ∧
    ET.periodDegree g (ET.clusterCollaborators c) w = ET.clusterRollupDegree g c w ∧
    ET.periodDegree g (ET.allCollaborators cls) w = ET.globalRollupDegree g cls w :=
  ⟨ET.departmentDegree_eq g w d, ET.entityDegree_eq g w e,
   ET.clusterDegree_eq g w c, ET.globalDegree_eq g w cls⟩

/-- Claim C5: on a weekday with a valid emotion type, a submission
before hour 12 is created as morning with HTTP 201 unless a morning
record exists, in which case 400 Morning emotion already submitted;
from hour 12 on, 400 Evening emotion already submitted when an evening
record exists, otherwise 400 No more emotion submissions allowed after
5 PM when the hour is 17 or later, otherwise created as evening with
HTTP 201. -/
theorem c5_submit_state_machine (w h : Nat) (vt me ee : Bool)
    (hw : w < 5) (hv : vt = true) :
    (h < 12 → me = false →
      ET.submit_emotion w h vt me ee = ⟨201, none, some "morning"⟩) ∧
    (h < 12 → me = true →
      ET.submit_emotion w h vt me ee =
        ⟨400, some "Morning emotion already submitted", none⟩) ∧
    (12 ≤ h → ee = true →
      ET.submit_emotion w h vt me ee =
        ⟨400, some "Evening emotion already submitted", none⟩) ∧
    (12 ≤ h → ee = false → 17 ≤ h →
      ET.submit_emotion w h vt me ee =
        ⟨400, some "No more emotion submissions allowed after 5 PM", none⟩) ∧
    (12 ≤ h → h < 17 → ee = false →
      ET.submit_emotion w h vt me ee = ⟨201, none, some "evening"⟩) := by
  subst hv
  have hw5 : ¬(w = 5 ∨ w = 6) := by omega
  refine ⟨?_, ?_, ?_, ?_, ?_⟩ <;> intros <;>
    (unfold ET.submit_emotion; rw [if_neg hw5]; split_ifs) <;>
    first | rfl | omega | simp_all

/-- Claim C5 witness: a weekday hour-9 submission with a valid type
and no prior morning record is created as a morning emotion with
HTTP 201. -/
theorem c5_submit_state_machine_witness :
    ET.submit_emotion 1 9 true false false = ⟨201, none, some "morning"⟩ :=
  (c5_submit_state_machine 1 9 true false false (by decide) rfl).1
    (by decide) rfl

/-- Claim C6: a submission on Saturday or Sunday (Madagascar local
weekday index 5 or 6) returns a body holding only the weekend error
message, with the framework default success status 200 rather than a
4xx status, and creates no Emotion record. -/
theorem c6_weekend_submission_status_200 (w h : Nat) (vt me ee : Bool)
    (hw : w = 5 ∨ w = 6) :
    ET.submit_emotion w h vt me ee = ⟨200, some ET.weekend_error_message, none⟩ := by
  simp [ET.submit_emotion, hw]

/-- Claim C6 witness: a Sunday submission at hour 10 yields the
200-status weekend error body and no created record. -/
theorem c6_weekend_submission_status_200_witness :
    ET.submit_emotion 6 10 true false false =
      ⟨200, some ET.weekend_error_message, none⟩ :=
  c6_weekend_submission_status_200 6 10 true false false (Or.inr rfl)

/-- Claim C7: for every integer d the degree-to-label classification
is a pure function of d, piecewise constant on exactly six bands taken
in order: d at most -5 angry; above -5 and at most -2 anxious; above
-2 and at most -1 sad; zero neutral; strictly between 0 and 5 happy;
at least 5 excited. -/
theorem c7_degree_label_bands (d : Int) :
    (d ≤ -5 → ET.get_emotion_label d = "angry") ∧
    (-5 < d → d ≤ -2 → ET.get_emotion_label d = "anxious") ∧
    (-2 < d → d ≤ -1 → ET.get_emotion_label d = "sad") ∧
    (d = 0 → ET.get_emotion_label d = "neutral") ∧
    (0 < d → d < 5 → ET.get_emotion_label d = "happy") ∧
    (5 ≤ d → ET.get_emotion_label d = "excited") := by
  refine ⟨?_, ?_, ?_, ?_, ?_, ?_⟩ <;> intros <;>
    (unfold ET.get_emotion_label; split_ifs <;> first | rfl | omega)

/-- Claim C7 witness: the classification at -4 is anxious. -/
theorem c7_degree_label_bands_witness : ET.get_emotion_label (-4) = "anxious" :=
  (c7_degree_label_bands (-4)).2.1 (by decide) (by decide)

/-- Claim C8: saving an EmotionType named HAPPY, SAD, NEUTRAL, ANGRY,
EXCITED or ANXIOUS stores degree 1, -1, 0, -5, 5 or -2 respectively,
recomputed from the name regardless of the caller-supplied degree;
any other name fails with a validation error keyed on the name field
naming the permitted values, and no row is persisted. -/
theorem c8_emotion_type_degree_mapping (cd : Int) (name : String) :
    (name = "HAPPY" → ET.emotion_type_save name cd = Except.ok ⟨"HAPPY", 1⟩) ∧
    (name = "SAD" → ET.emotion_type_save name cd = Except.ok ⟨"SAD", -1⟩) ∧
    (name = "NEUTRAL" → ET.emotion_type_save name cd = Except.ok ⟨"NEUTRAL", 0⟩) ∧
    (name = "ANGRY" → ET.emotion_type_save name cd = Except.ok ⟨"ANGRY", -5⟩) ∧
    (name = "EXCITED" → ET.emotion_type_save name cd = Except.ok ⟨"EXCITED", 5⟩) ∧
    (name = "ANXIOUS" → ET.emotion_type_save name cd = Except.ok ⟨"ANXIOUS", -2⟩) ∧
    (name ∉ ["HAPPY", "SAD", "NEUTRAL", "ANGRY", "EXCITED", "ANXIOUS"] →
      ET.emotion_type_save name cd = Except.error
        ⟨"name",
         "Emotion type must be one of: HAPPY, SAD, NEUTRAL, ANGRY, EXCITED, ANXIOUS"⟩) := by
  refine ⟨?_, ?_, ?_, ?_, ?_, ?_, ?_⟩
  · rintro rfl; rfl
  · rintro rfl; rfl
  · rintro rfl; rfl
  · rintro rfl; rfl
  · rintro rfl; rfl
  · rintro rfl; rfl
  · intro hname
    simp only [List.mem_cons, List.not_mem_nil, or_false, not_or] at hname
    obtain ⟨h1, h2, h3, h4, h5, h6⟩ := hname
    simp [ET.emotion_type_save, ET.emotion_type_clean, ET.EMOTION_DEGREES,
      h1, h2, h3, h4, h5, h6]

/-- Claim C8 witness: saving ANGRY with caller-supplied degree 42
still stores degree -5. -/
theorem c8_emotion_type_degree_mapping_witness :
    ET.emotion_type_save "ANGRY" 42 = Except.ok ⟨"ANGRY", -5⟩ :=
  (c8_emotion_type_degree_mapping 42 "ANGRY").2.2.2.1 rfl

/-- Claim C9: for a collaborator set of size N and submitted count S,
the day-participation percentage of the manager overview equals
min(1, S / (2 N)) times 100 when N is positive and 0 when N is zero,
the personal overview percentage equals the same formula at N = 1, and
every value lies between 0 and 100 inclusive. -/
theorem c9_participation_percentage (n s : Nat) :
    (0 < n → ET.manager_percent_day n s = min 1 ((s : ℚ) / (2 * n)) * 100) ∧
    (n = 0 → ET.manager_percent_day n s = 0) ∧
    0 ≤ ET.manager_percent_day n s ∧ ET.manager_percent_day n s ≤ 100 ∧
    ET.overview_percent_day s = min 1 ((s : ℚ) / (2 * 1)) * 100 ∧
    0 ≤ ET.overview_percent_day s ∧ ET.overview_percent_day s ≤ 100 := by
  have hsx : (0 : ℚ) ≤ (s : ℚ) / 2 := by positivity
  have hb2 := ET.clamp_percent_bounds ((s : ℚ) / 2) hsx
  have hmb : 0 ≤ ET.manager_percent_day n s ∧ ET.manager_percent_day n s ≤ 100 := by
    unfold ET.manager_percent_day
    split_ifs with hn
    · exact ET.clamp_percent_bounds _ (by positivity)
    · exact ET.clamp_percent_bounds 0 le_rfl
  refine ⟨?_, ?_, hmb.1, hmb.2, ?_, hb2.1, hb2.2⟩
  · intro hn
    unfold ET.manager_percent_day
    rw [if_pos hn]
    ring_nf
  · intro hn
    subst hn
    simp [ET.manager_percent_day]
  · unfold ET.overview_percent_day
    norm_num

/-- Claim C9 witness: with two subordinates and five submissions the
manager day percentage equals the clamped formula, hence 100. -/
theorem c9_participation_percentage_witness :
    ET.manager_percent_day 2 5 = min 1 ((5 : ℚ) / (2 * 2)) * 100 :=
  (c9_participation_percentage 2 5).1 (by norm_num)

/-- Claim C10: the overview and reporting handlers use the today, ISO
week number, month and year captured at module initialization
(views.py lines 26-29) for every day, week and month window filter and
never re-read the clock at request time, so two requests served by the
same process over identical stored data produce identical responses
even on different wall-clock days. -/
theorem c10_overview_request_time_independent (g : ET.ViewsGlobals)
    (t1 t2 : Int) (subs : List ET.Collaborator) (d : ET.Department)
    (e : ET.Entity) (c : ET.Cluster) (cls : List ET.Cluster) :
    ET.manager_overview g t1 subs = ET.manager_overview g t2 subs ∧
    ET.department_director_overview g t1 d = ET.department_director_overview g t2 d ∧
    ET.entity_director_overview g t1 e = ET.entity_director_overview g t2 e ∧
    ET.pole_director_overview g t1 c = ET.pole_director_overview g t2 c ∧
    ET.drh_overview g t1 cls = ET.drh_overview g t2 cls :=
  ⟨rfl, rfl, rfl, rfl, rfl⟩
